import Mathlib

/-!
Verification of the non-pty command supervisor (`src/src/exec_nopty.c`).

The shallow embedding below translates the state manipulated by the
supervisor's callbacks into Lean structures and each callback into a pure
function from its inputs (the outcome of the external system call it
reacts to) and the closure state to the updated state, or to a description
of the action it performs.  External calls — `read`, `getpgid`, `waitpid`,
`selinux_relabel_tty`, `intercept_setup`, `exec_ptrace_seize` — are
modelled by parameters carrying their observed results.
-/

namespace ExecNopty

/-! ### Command status (struct command_status)

The C struct has two `int` fields, `type` and `val`; the constants below
carry the values from `sudo_exec.h` (`CMD_INVALID 0`, `CMD_ERRNO 1`,
`CMD_WSTATUS 2`), which `src/src/exec_nopty.c` stores into both fields
separately (lines 92-95, 110-111, 571-573). -/

def CMD_INVALID : Int := 0

def CMD_ERRNO : Int := 1

def CMD_WSTATUS : Int := 2

/-- Model of `struct command_status`: two plain `int` fields. -/
structure command_status where
  type : Int
  val : Int
deriving DecidableEq, Repr

/-! ### Errno and signal number constants (Linux values; `SIGINFO` uses the
BSD number, the source guards it with `#ifdef SIGINFO` and we model the
build where it is defined). -/

def EINTR : Int := 4

def EAGAIN : Int := 11

def SIGHUP : Int := 1

def SIGINT : Int := 2

def SIGQUIT : Int := 3

def SIGALRM : Int := 14

def SIGTERM : Int := 15

def SIGCHLD : Int := 17

def SIGCONT : Int := 18

def SIGTSTP : Int := 20

def SIGINFO : Int := 29

/-! ### Error pipe callback (`errpipe_cb`, lines 76-118)

The callback's observable state: the command status sink `ec->cstat`,
whether the error-pipe event is still registered on the event base
(`sudo_ev_del` removes it, line 113), whether the pipe fd is still open
(`close(fd)`, line 114), and whether `sudo_ev_loopbreak` has been called
(line 99). -/

structure errpipe_state where
  cstat : command_status
  errpipe_registered : Bool
  fd_open : Bool
  loopbreak : Bool
deriving DecidableEq, Repr

/-- Outcome of the `read(fd, &errval, sizeof(errval))` call at line 88:
`failure errno` models a return of -1 with the given `errno`, `eof` a
return of 0, and `value errval` a positive return delivering `errval`. -/
inductive read_result where
  | failure (errno : Int)
  | eof
  | value (errval : Int)
deriving DecidableEq, Repr

/-- `errpipe_cb`, lines 88-116.  On a failed read with errno other than
EAGAIN/EINTR the status is overwritten only when `ec->cstat->val ==
CMD_INVALID` (line 92 compares the `val` field) and the loop is broken;
on EOF the event is deleted and the fd closed; on a positive read the
status is set to `CMD_ERRNO`/`errval` with no guard, then the event is
deleted and the fd closed. -/
def errpipe_cb : read_result → errpipe_state → errpipe_state
  | read_result.failure e, s =>
      if e ≠ EAGAIN ∧ e ≠ EINTR then
        let s1 := if s.cstat.val = CMD_INVALID then
            { s with cstat := { type := CMD_ERRNO, val := e } }
          else s
        { s1 with loopbreak := true }
      else s
  | read_result.eof, s =>
      { s with errpipe_registered := false, fd_open := false }
  | read_result.value errval, s =>
      { s with cstat := { type := CMD_ERRNO, val := errval },
               errpipe_registered := false, fd_open := false }

/-- A read outcome after which the callback will not be invoked again:
EOF or a delivered errno value (the two branches of the `default` case,
lines 102-115). -/
def terminal_read : read_result → Bool
  | read_result.failure _ => false
  | read_result.eof => true
  | read_result.value _ => true

/-- Initial state: `cstat` invalid, error-pipe event registered, fd open,
no loop break requested. -/
def errpipe_init : errpipe_state :=
  { cstat := { type := CMD_INVALID, val := 0 },
    errpipe_registered := true, fd_open := true, loopbreak := false }

/-- A state whose status is `WSTATUS(0)` (main child exited cleanly): the
`type` field is not `CMD_INVALID` but the `val` field is `0 = CMD_INVALID`. -/
def errpipe_wstatus0 : errpipe_state :=
  { cstat := { type := CMD_WSTATUS, val := 0 },
    errpipe_registered := true, fd_open := true, loopbreak := false }

/-! ### Theorems about the error-pipe callback -/

/-- Claim C1, counterexample.  The claim states that on a failed read with
errno outside EAGAIN/EINTR the status is overwritten if and only if
`cstat.type == INVALID`.  At the concrete state whose status is
`WSTATUS(0)` (type `CMD_WSTATUS`, so non-INVALID) and errno 5, the code
overwrites the status anyway, because line 92 guards on the `val` field,
which is `0 = CMD_INVALID` here. -/
theorem errpipe_cb_overwrites_wstatus_zero :
    errpipe_wstatus0.cstat.type ≠ CMD_INVALID ∧
    (errpipe_cb (read_result.failure 5) errpipe_wstatus0).cstat ≠
      errpipe_wstatus0.cstat := by
  decide

/-- Claim C1, amended.  When the error-pipe read returns -1: with errno
EAGAIN or EINTR the callback returns without any state change; with any
other errno it sets `cstat` to `ERRNO(errno)` if and only if the `val`
field of `cstat` equals `CMD_INVALID` (the guard at line 92 is on `val`,
not `type`), it breaks the event loop, and it neither deregisters the
event nor closes the fd. -/
theorem errpipe_cb_read_failure_spec (s : errpipe_state) (e : Int) :
    ((e = EAGAIN ∨ e = EINTR) → errpipe_cb (read_result.failure e) s = s) ∧
    (e ≠ EAGAIN → e ≠ EINTR →
      (errpipe_cb (read_result.failure e) s).cstat =
        (if s.cstat.val = CMD_INVALID then { type := CMD_ERRNO, val := e }
         else s.cstat) ∧
      (errpipe_cb (read_result.failure e) s).loopbreak = true ∧
      (errpipe_cb (read_result.failure e) s).errpipe_registered =
        s.errpipe_registered ∧
      (errpipe_cb (read_result.failure e) s).fd_open = s.fd_open) := by
  constructor
  · rintro (h | h) <;> subst h <;> simp [errpipe_cb]
  · intro h1 h2
    by_cases hv : s.cstat.val = CMD_INVALID <;>
      simp [errpipe_cb, h1, h2, hv]

/-- Claim C1 witness: the amended theorem applied at concrete inputs. -/
theorem errpipe_cb_read_failure_spec_witness :
    errpipe_cb (read_result.failure EINTR) errpipe_init = errpipe_init ∧
    (errpipe_cb (read_result.failure 5) errpipe_wstatus0).loopbreak = true :=
  ⟨(errpipe_cb_read_failure_spec errpipe_init EINTR).1 (Or.inr rfl),
   ((errpipe_cb_read_failure_spec errpipe_wstatus0 5).2
     (by decide) (by decide)).2.1⟩

/-- Claim C7: on a terminal read outcome (EOF or a delivered value) the
callback deregisters the error-pipe event and closes the fd without
breaking the event loop; since the event base only invokes callbacks of
registered events, the error-pipe callback cannot fire again afterward. -/
theorem errpipe_cb_terminal_deregisters (r : read_result) (s : errpipe_state)
    (h : terminal_read r = true) :
    (errpipe_cb r s).errpipe_registered = false ∧
    (errpipe_cb r s).fd_open = false ∧
    (errpipe_cb r s).loopbreak = s.loopbreak := by
  cases r with
  | failure e => simp [terminal_read] at h
  | eof => simp [errpipe_cb]
  | value errval => simp [errpipe_cb]

/-- Claim C7 witness: the theorem applied at EOF from the initial state. -/
theorem errpipe_cb_terminal_deregisters_witness :
    (errpipe_cb read_result.eof errpipe_init).errpipe_registered = false ∧
    (errpipe_cb read_result.eof errpipe_init).fd_open = false ∧
    (errpipe_cb read_result.eof errpipe_init).loopbreak =
      errpipe_init.loopbreak :=
  errpipe_cb_terminal_deregisters read_result.eof errpipe_init (by decide)

/-- Claim C9: when the read delivers a nonzero number of bytes, the
callback stores `ERRNO(errval)` into `cstat` unconditionally — for every
prior state, including one already holding a non-INVALID status, the
status is overwritten (lines 110-111 carry no INVALID check). -/
theorem errpipe_cb_value_overwrites (s : errpipe_state) (errval : Int) :
    (errpipe_cb (read_result.value errval) s).cstat =
      { type := CMD_ERRNO, val := errval } :=
  rfl

/-! ### Signal dispatcher (`signal_cb_nopty`, lines 121-198)

The closure fields the dispatcher reads: the main child pid `cmnd_pid`
(`-1` sentinel) and the supervisor's process group `ppgrp`.  The delivery
siginfo carries whether the signal was user-generated (`USER_SIGNALED`)
and the sending pid `si_pid`.  The external `getpgid` call is modelled as
a function to `Option Int` (`none` models a return of -1). -/

structure signal_closure where
  cmnd_pid : Int
  ppgrp : Int
deriving DecidableEq, Repr

structure sig_info where
  user_signaled : Bool
  si_pid : Int
deriving DecidableEq, Repr

/-- The action the dispatcher performs: return without touching the child,
invoke the SIGCHLD reaper, `terminate_command(cmnd_pid, false)`, or
`kill(cmnd_pid, signo)`. -/
inductive sig_action where
  | noAction
  | handleChld
  | terminate
  | forward (pid : Int) (signo : Int)
deriving DecidableEq, Repr

/-- The sender-process-group test duplicated at lines 161-169 (suspend
class) and 178-186 (default class): the sender's process group equals the
supervisor's `ppgrp` or the child's pid, or the `getpgid` lookup fails and
the sender pid equals the child's pid. -/
def pgrp_related (si : sig_info) (gp : Int → Option Int)
    (ec : signal_closure) : Bool :=
  match gp si.si_pid with
  | some si_pgrp => si_pgrp = ec.ppgrp ∨ si_pgrp = ec.cmnd_pid
  | none => si.si_pid = ec.cmnd_pid

/-- The filtering part of the `switch` (lines 138-188): `true` iff control
reaches the send site at line 190.  The suspend class (`SIGINFO`, `SIGINT`,
`SIGQUIT`, `SIGTSTP`) drops kernel-generated signals and user-generated
ones from a related process group; every other signal (the `default` case)
is dropped only when user-generated with a nonzero sender in a related
process group. -/
def signal_deliver (signo : Int) (si : sig_info) (gp : Int → Option Int)
    (ec : signal_closure) : Bool :=
  if signo = SIGINFO ∨ signo = SIGINT ∨ signo = SIGQUIT ∨ signo = SIGTSTP then
    if si.user_signaled = false then false
    else if si.si_pid ≠ 0 then !(pgrp_related si gp ec)
    else true
  else
    if si.user_signaled = true ∧ si.si_pid ≠ 0 then !(pgrp_related si gp ec)
    else true

/-- `signal_cb_nopty`, lines 121-198: return immediately when there is no
child (line 129); hand SIGCHLD to the reaper (line 140); otherwise filter
per `signal_deliver` and, at the send site (lines 190-195), terminate the
command on SIGALRM and forward every other signal with `kill`. -/
def signal_cb_nopty (signo : Int) (si : sig_info) (gp : Int → Option Int)
    (ec : signal_closure) : sig_action :=
  if ec.cmnd_pid = -1 then sig_action.noAction
  else if signo = SIGCHLD then sig_action.handleChld
  else if signal_deliver signo si gp ec = false then sig_action.noAction
  else if signo = SIGALRM then sig_action.terminate
  else sig_action.forward ec.cmnd_pid signo

/-- A concrete closure: child pid 100, supervisor pgrp 50. -/
def ec_example : signal_closure := { cmnd_pid := 100, ppgrp := 50 }

/-- A concrete user-generated siginfo from sender pid 60. -/
def si_example : sig_info := { user_signaled := true, si_pid := 60 }

/-- A concrete `getpgid` oracle mapping every pid to group 50 (the
supervisor's group in `ec_example`). -/
def gp_example : Int → Option Int := fun _ => some 50

/-- A closure whose main child is already reaped (or not yet forked). -/
def ec_nochild : signal_closure := { cmnd_pid := -1, ppgrp := 50 }

/-! ### Theorems about the signal dispatcher -/

/-- Claim C4: for a delivered signal in the suspend class (SIGINT, SIGQUIT,
SIGTSTP, SIGINFO) while the child is alive, the dispatcher forwards only
user-generated signals (a kernel-generated one yields no action), and a
user-generated one with a nonzero sender pid whose process group equals the
supervisor's `ppgrp` or the child's pid — or whose `getpgid` lookup fails
while the sender pid equals the child's pid — yields no action either. -/
theorem signal_cb_nopty_suspend_class_filter (signo : Int) (si : sig_info)
    (gp : Int → Option Int) (ec : signal_closure)
    (hs : signo = SIGINT ∨ signo = SIGQUIT ∨ signo = SIGTSTP ∨ signo = SIGINFO)
    (hc : ec.cmnd_pid ≠ -1) :
    (si.user_signaled = false →
      signal_cb_nopty signo si gp ec = sig_action.noAction) ∧
    (si.user_signaled = true → si.si_pid ≠ 0 → pgrp_related si gp ec = true →
      signal_cb_nopty signo si gp ec = sig_action.noAction) := by
  have hch : signo ≠ SIGCHLD := by
    rcases hs with h | h | h | h <;> subst h <;> decide
  have hclass :
      signo = SIGINFO ∨ signo = SIGINT ∨ signo = SIGQUIT ∨ signo = SIGTSTP := by
    tauto
  constructor
  · intro hu
    have hd : signal_deliver signo si gp ec = false := by
      unfold signal_deliver
      rw [if_pos hclass]
      simp [hu]
    simp [signal_cb_nopty, hc, hch, hd]
  · intro hu hp hr
    have hd : signal_deliver signo si gp ec = false := by
      unfold signal_deliver
      rw [if_pos hclass]
      simp [hu, hp, hr]
    simp [signal_cb_nopty, hc, hch, hd]

/-- Claim C4 witness: a kernel-generated SIGTSTP is not forwarded, and a
user-generated SIGINT from a sender in the supervisor's process group is
not forwarded. -/
theorem signal_cb_nopty_suspend_class_filter_witness :
    signal_cb_nopty SIGTSTP { user_signaled := false, si_pid := 0 }
      gp_example ec_example = sig_action.noAction ∧
    signal_cb_nopty SIGINT si_example gp_example ec_example =
      sig_action.noAction :=
  ⟨(signal_cb_nopty_suspend_class_filter SIGTSTP
      { user_signaled := false, si_pid := 0 } gp_example ec_example
      (by decide) (by decide)).1 rfl,
   (signal_cb_nopty_suspend_class_filter SIGINT si_example gp_example
      ec_example (by decide) (by decide)).2 rfl (by decide) (by decide)⟩

/-- Claim C5, counterexample.  The claim states every delivered SIGALRM
with a live child terminates the child.  A user-generated SIGALRM whose
sender's process group equals the supervisor's (`gp_example` maps sender
60 to group 50 = `ec_example.ppgrp`) is filtered by the `default`-case
self-harm test (lines 178-186) and produces no action at all. -/
theorem signal_cb_nopty_sigalrm_suppressed :
    ec_example.cmnd_pid ≠ -1 ∧
    signal_cb_nopty SIGALRM si_example gp_example ec_example ≠
      sig_action.terminate := by
  decide

/-- Claim C5, amended.  A delivered SIGALRM with a live child terminates
the command via `terminate_command` unless it is suppressed by the
default-case self-harm filter (user-generated, nonzero sender pid, sender
process group related to the supervisor or the child); and SIGALRM is
never forwarded to the child via `kill`, on any input. -/
theorem signal_cb_nopty_sigalrm_terminates (si : sig_info)
    (gp : Int → Option Int) (ec : signal_closure)
    (hc : ec.cmnd_pid ≠ -1)
    (hn : ¬(si.user_signaled = true ∧ si.si_pid ≠ 0 ∧
            pgrp_related si gp ec = true)) :
    signal_cb_nopty SIGALRM si gp ec = sig_action.terminate ∧
    ∀ (si2 : sig_info) (gp2 : Int → Option Int) (ec2 : signal_closure)
      (p s2 : Int),
      signal_cb_nopty SIGALRM si2 gp2 ec2 ≠ sig_action.forward p s2 := by
  constructor
  · have hclass :
        ¬(SIGALRM = SIGINFO ∨ SIGALRM = SIGINT ∨ SIGALRM = SIGQUIT ∨
          SIGALRM = SIGTSTP) := by decide
    have hd : signal_deliver SIGALRM si gp ec = true := by
      unfold signal_deliver
      rw [if_neg hclass]
      by_cases h : si.user_signaled = true ∧ si.si_pid ≠ 0
      · rw [if_pos h]
        have hr : pgrp_related si gp ec = false := by
          rcases Bool.eq_false_or_eq_true (pgrp_related si gp ec) with h' | h'
          · exact absurd ⟨h.1, h.2, h'⟩ hn
          · exact h'
        simp [hr]
      · rw [if_neg h]
    have hch : SIGALRM ≠ SIGCHLD := by decide
    simp [signal_cb_nopty, hc, hch, hd]
  · intro si2 gp2 ec2 p s2
    unfold signal_cb_nopty
    split
    · simp
    · split
      · simp
      · split
        · simp
        · split
          · simp
          · rename_i h
            exact absurd rfl h

/-- Claim C5 witness: a kernel-generated SIGALRM (timeout alarm) with a
live child terminates the command. -/
theorem signal_cb_nopty_sigalrm_terminates_witness :
    signal_cb_nopty SIGALRM { user_signaled := false, si_pid := 0 }
      gp_example ec_example = sig_action.terminate :=
  (signal_cb_nopty_sigalrm_terminates
    { user_signaled := false, si_pid := 0 } gp_example ec_example
    (by decide) (by decide)).1

/-- Claim C6: whenever `cmnd_pid == -1`, the dispatcher returns
immediately with no action for every signal, siginfo and `getpgid`
oracle — nothing is forwarded to the child. -/
theorem signal_cb_nopty_no_child (signo : Int) (si : sig_info)
    (gp : Int → Option Int) (ec : signal_closure)
    (h : ec.cmnd_pid = -1) :
    signal_cb_nopty signo si gp ec = sig_action.noAction := by
  simp [signal_cb_nopty, h]

/-- Claim C6 witness: the theorem applied to a reaped-child closure. -/
theorem signal_cb_nopty_no_child_witness :
    signal_cb_nopty SIGTERM si_example gp_example ec_nochild =
      sig_action.noAction :=
  signal_cb_nopty_no_child SIGTERM si_example gp_example ec_nochild rfl

/-! ### Reaper (`handle_sigchld_nopty`, lines 505-583)

One loop iteration handles one positive `waitpid` result.  The state the
reaper mutates: the status sink and `cmnd_pid`.  A result is either a
stop (`WIFSTOPPED`) or a terminal status (`WIFSIGNALED`, `WIFEXITED`, or
the unexpected-status case, which share the lines 566-580 logic). -/

structure reap_state where
  cstat : command_status
  cmnd_pid : Int
deriving DecidableEq, Repr

/-- One positive `waitpid(-1, &status, ...)` outcome: the reaped pid, the
raw wait status, and whether `WIFSTOPPED(status)` holds. -/
structure wait_result where
  pid : Int
  status : Int
  is_stopped : Bool
deriving DecidableEq, Repr

/-- The body of the reaper's drain loop for one reaped child (lines
530-581).  A stop never touches `cstat` or `cmnd_pid` (it at most suspends
the supervisor).  A terminal status of a pid other than the main child is
only logged (line 567).  For the main child, `cstat` becomes
`WSTATUS(status)` only when it is still `CMD_INVALID` (lines 571-573, the
guard is on the `type` field); otherwise it is left unchanged with a
diagnostic (lines 574-579); in both cases `cmnd_pid` becomes -1
(line 580). -/
def reap_one (ec : reap_state) (w : wait_result) : reap_state :=
  if w.is_stopped then ec
  else if w.pid ≠ ec.cmnd_pid then ec
  else
    { cstat :=
        if ec.cstat.type = CMD_INVALID then
          { type := CMD_WSTATUS, val := w.status }
        else ec.cstat,
      cmnd_pid := -1 }

/-- The drain loop over the sequence of children `waitpid` delivers before
returning 0 or ECHILD. -/
def handle_sigchld_nopty (ec : reap_state) (ws : List wait_result) :
    reap_state :=
  ws.foldl reap_one ec

/-! ### Theorems about the reaper -/

/-- Claim C3: when the reaper observes the main child (`pid == cmnd_pid`)
exited or terminated by a signal, it stores `WSTATUS(raw status)` into
`cstat` exactly when `cstat.type == CMD_INVALID` — a non-INVALID status
(such as an exec-failure errno) is left unchanged and the wait status
discarded — and in both cases `cmnd_pid` is set to -1. -/
theorem reap_one_main_child (ec : reap_state) (w : wait_result)
    (hstop : w.is_stopped = false) (hpid : w.pid = ec.cmnd_pid) :
    (reap_one ec w).cstat =
      (if ec.cstat.type = CMD_INVALID then
        { type := CMD_WSTATUS, val := w.status }
       else ec.cstat) ∧
    (reap_one ec w).cmnd_pid = -1 := by
  constructor <;> simp [reap_one, hstop, hpid]

/-- Claim C3 witness: the theorem applied twice — once from an INVALID
status (the wait status is stored) and once from an exec-failure errno
status (the wait status is discarded); `cmnd_pid` becomes -1 both times. -/
theorem reap_one_main_child_witness :
    (reap_one { cstat := { type := CMD_INVALID, val := 0 }, cmnd_pid := 100 }
        { pid := 100, status := 9, is_stopped := false }).cstat =
      { type := CMD_WSTATUS, val := 9 } ∧
    (reap_one { cstat := { type := CMD_ERRNO, val := 2 }, cmnd_pid := 100 }
        { pid := 100, status := 9, is_stopped := false }).cstat =
      { type := CMD_ERRNO, val := 2 } ∧
    (reap_one { cstat := { type := CMD_ERRNO, val := 2 }, cmnd_pid := 100 }
        { pid := 100, status := 9, is_stopped := false }).cmnd_pid = -1 := by
  refine ⟨?_, ?_, ?_⟩
  · rw [(reap_one_main_child
      { cstat := { type := CMD_INVALID, val := 0 }, cmnd_pid := 100 }
      { pid := 100, status := 9, is_stopped := false } rfl rfl).1]
    decide
  · rw [(reap_one_main_child
      { cstat := { type := CMD_ERRNO, val := 2 }, cmnd_pid := 100 }
      { pid := 100, status := 9, is_stopped := false } rfl rfl).1]
    decide
  · exact (reap_one_main_child
      { cstat := { type := CMD_ERRNO, val := 2 }, cmnd_pid := 100 }
      { pid := 100, status := 9, is_stopped := false } rfl rfl).2

/-! ### Command details and the supervisor entry point (`exec_nopty`)

Flags of `struct command_details` used by this file, modelled as a record
of booleans (`ISSET(flags, A|B)` becomes a disjunction, `CLR(flags,
A|B|C)` clears the three fields).  The event base handle is an
`Option Nat` so that the NULL store at line 218 is observable. -/

structure cd_flags where
  cd_intercept : Bool
  cd_log_subcmds : Bool
  cd_use_ptrace : Bool
  cd_set_timeout : Bool
  cd_rbac_enabled : Bool
deriving DecidableEq, Repr

structure command_details where
  flags : cd_flags
  evbase : Option Nat
  execfd : Int
  timeout : Int
deriving DecidableEq, Repr

/-- The non-event fields of `struct exec_closure_nopty` filled in by
`fill_exec_closure_nopty`. -/
structure exec_closure_filled where
  evbase : Option Nat
  ppgrp : Int
deriving DecidableEq, Repr

/-- `fill_exec_closure_nopty`, lines 205-320 (the state-transfer part):
stores `getpgrp()` into the closure, moves the donated event base from
`details->evbase` into `ec->evbase`, and sets `details->evbase = NULL`
(lines 212, 217-218).  The event allocations either succeed (registering
the error-pipe and signal events) or abort the process fatally, so they
carry no state in this model. -/
def fill_exec_closure_nopty (details : command_details)
    (getpgrp_result : Int) : exec_closure_filled × command_details :=
  ({ evbase := details.evbase, ppgrp := getpgrp_result },
   { details with evbase := none })

/-! ### Intercept setup block (`exec_nopty`, lines 451-468) -/

/-- Results of the external intercept calls: whether
`intercept_setup(...)` returned non-NULL, and the value
`exec_ptrace_seize(cmnd_pid)` would return. -/
structure intercept_env where
  setup_ok : Bool
  seize_rc : Int
deriving DecidableEq, Repr

/-- Observable outcome of the block: the possibly-updated flag set,
whether `terminate_command(ec.cmnd_pid, true)` was called, and whether
the closure holds a non-NULL intercept handle. -/
structure intercept_outcome where
  flags : cd_flags
  terminated_child : Bool
  intercept_set : Bool
deriving DecidableEq, Repr

/-- Lines 451-468: when `CD_INTERCEPT` or `CD_LOG_SUBCMDS` is set, `rc`
starts at 1; a NULL `intercept_setup` makes it -1; otherwise, when
`CD_USE_PTRACE` is set, `rc` becomes the seize result and a 0 result
clears `CD_INTERCEPT|CD_LOG_SUBCMDS|CD_USE_PTRACE`; finally `rc == -1`
terminates the child. -/
def intercept_block (flags : cd_flags) (env : intercept_env) :
    intercept_outcome :=
  if flags.cd_intercept = true ∨ flags.cd_log_subcmds = true then
    if env.setup_ok = false then
      { flags := flags, terminated_child := true, intercept_set := false }
    else if flags.cd_use_ptrace = true then
      if env.seize_rc = 0 then
        { flags := { flags with
                     cd_intercept := false
                     cd_log_subcmds := false
                     cd_use_ptrace := false },
          terminated_child := false, intercept_set := true }
      else
        { flags := flags, terminated_child := env.seize_rc = -1,
          intercept_set := true }
    else
      { flags := flags, terminated_child := false, intercept_set := true }
  else
    { flags := flags, terminated_child := false, intercept_set := false }

/-! ### Signal mask discipline of `exec_nopty` (lines 354-497)

A signal mask is modelled as its membership function.  `sigfillset`
(line 391) yields the full set; `sigprocmask(SIG_BLOCK, set, &oset)`
(line 392) unions the current mask with `set` and saves the old mask;
`sigprocmask(SIG_SETMASK, &oset, NULL)` (lines 396, 471) restores it. -/

abbrev SigMask := Nat → Bool

def sigfillset : SigMask := fun _ => true

def sig_block (old new : SigMask) : SigMask := fun s => old s || new s

/-- The exit path `exec_nopty` takes after blocking signals: the
early-termination return (lines 395-398), the SELinux relabel-failure
return (lines 401-406), or the normal return after the event loop. -/
inductive exec_path where
  | early_term
  | relabel_fail
  | normal
deriving DecidableEq, Repr

/-- Results of the external calls the mask discipline branches on:
`sudo_terminated(cstat)` and `selinux_relabel_tty` (with the errno it
would leave on failure). -/
structure exec_env where
  sudo_terminated : Bool
  relabel_ok : Bool
  relabel_errno : Int
deriving DecidableEq, Repr

/-- What `exec_nopty` leaves behind on one of the blocking exit paths:
the process signal mask at return, the path taken, and the status sink
as far as these paths write it. -/
structure exec_exit where
  mask : SigMask
  path : exec_path
  cstat : command_status

/-- The signal-mask flow of `exec_nopty` (HAVE_SELINUX build), projected
onto its three blocking exit paths.  At line 392 the mask becomes the
union of the entry mask and the full set.  The early-termination path
restores the entry mask before returning (line 396).  The relabel-failure
path stores `ERRNO(errno)` into cstat and returns at line 405 with no
`sigprocmask` call, so the blocked mask is still installed.  Every other
continuation reaches the restore at line 471 before the event loop and
the final return (the intermediate `sudo_fatal` paths abort the process
and are not returns of the function). -/
def exec_nopty_mask (entry : SigMask) (details : command_details)
    (env : exec_env) (cstat : command_status) : exec_exit :=
  let blocked := sig_block entry sigfillset
  if env.sudo_terminated then
    { mask := entry, path := exec_path.early_term, cstat := cstat }
  else if details.flags.cd_rbac_enabled = true ∧ env.relabel_ok = false then
    { mask := blocked, path := exec_path.relabel_fail,
      cstat := { type := CMD_ERRNO, val := env.relabel_errno } }
  else
    { mask := entry, path := exec_path.normal, cstat := cstat }

/-- The empty signal mask (no signal blocked), a concrete entry mask. -/
def empty_mask : SigMask := fun _ => false

/-- Concrete details with only `CD_RBAC_ENABLED` set. -/
def rbac_details : command_details :=
  { flags := { cd_intercept := false, cd_log_subcmds := false,
               cd_use_ptrace := false, cd_set_timeout := false,
               cd_rbac_enabled := true },
    evbase := some 0, execfd := -1, timeout := 0 }

/-- Environment in which `sudo_terminated` is false and the SELinux tty
relabel fails with errno 13 (EACCES). -/
def relabel_fail_env : exec_env :=
  { sudo_terminated := false, relabel_ok := false, relabel_errno := 13 }

/-- An initial (INVALID) command status. -/
def cstat_invalid : command_status := { type := CMD_INVALID, val := 0 }

/-! ### Theorems about `exec_nopty` setup and teardown -/

/-- Claim C2, counterexample.  With an empty entry mask, RBAC enabled and
a failing tty relabel, `exec_nopty` returns on the relabel-failure path
with signal 1 (SIGHUP) blocked, whereas it was not blocked at entry: the
mask at return differs from the mask at entry on that exit path. -/
theorem exec_nopty_relabel_fail_mask_not_restored :
    (exec_nopty_mask empty_mask rbac_details relabel_fail_env
        cstat_invalid).path = exec_path.relabel_fail ∧
    (exec_nopty_mask empty_mask rbac_details relabel_fail_env
        cstat_invalid).mask 1 = true ∧
    empty_mask 1 = false :=
  ⟨rfl, rfl, rfl⟩

/-- Claim C2, amended.  Of the exit paths of `exec_nopty` that block
signals, the early-termination return and the normal return restore the
entry mask, but the RBAC/SELinux relabel-failure return leaves the mask
fully blocked (the entry mask joined with the full set, under which every
signal is blocked): the mask at return equals the entry mask exactly on
the paths other than the relabel failure. -/
theorem exec_nopty_mask_restored_except_relabel_fail (entry : SigMask)
    (d : command_details) (env : exec_env) (c : command_status) :
    ((exec_nopty_mask entry d env c).mask =
      if (exec_nopty_mask entry d env c).path = exec_path.relabel_fail
      then sig_block entry sigfillset else entry) ∧
    (∀ s, sig_block entry sigfillset s = true) := by
  constructor
  · unfold exec_nopty_mask
    by_cases h1 : env.sudo_terminated = true
    · simp [h1]
    · by_cases h2 : d.flags.cd_rbac_enabled = true ∧ env.relabel_ok = false
      · simp [h1, h2]
      · simp [h1, h2]
  · intro s
    simp [sig_block, sigfillset]

/-- Claim C8: when intercept or subcommand logging is requested, a NULL
`intercept_setup` result terminates the child; with a non-NULL handle and
`CD_USE_PTRACE` set, a seize result of 0 clears `CD_INTERCEPT`,
`CD_LOG_SUBCMDS` and `CD_USE_PTRACE` without terminating, and a seize
result of -1 terminates the child. -/
theorem intercept_block_spec (flags : cd_flags) (env : intercept_env)
    (h : flags.cd_intercept = true ∨ flags.cd_log_subcmds = true) :
    (env.setup_ok = false →
      (intercept_block flags env).terminated_child = true) ∧
    (env.setup_ok = true → flags.cd_use_ptrace = true → env.seize_rc = 0 →
      (intercept_block flags env).flags.cd_intercept = false ∧
      (intercept_block flags env).flags.cd_log_subcmds = false ∧
      (intercept_block flags env).flags.cd_use_ptrace = false ∧
      (intercept_block flags env).terminated_child = false) ∧
    (env.setup_ok = true → flags.cd_use_ptrace = true → env.seize_rc = -1 →
      (intercept_block flags env).terminated_child = true) := by
  refine ⟨?_, ?_, ?_⟩
  · intro hnull
    simp [intercept_block, h, hnull]
  · intro hok hpt hz
    simp [intercept_block, h, hok, hpt, hz]
  · intro hok hpt hm
    simp [intercept_block, h, hok, hpt, hm]

/-- Flags with intercept, subcommand logging and ptrace all requested. -/
def flags_intercept_ptrace : cd_flags :=
  { cd_intercept := true, cd_log_subcmds := true, cd_use_ptrace := true,
    cd_set_timeout := false, cd_rbac_enabled := false }

/-- Claim C8 witness: the theorem applied at concrete environments for
each of the three branches. -/
theorem intercept_block_spec_witness :
    (intercept_block flags_intercept_ptrace
        { setup_ok := false, seize_rc := 1 }).terminated_child = true ∧
    (intercept_block flags_intercept_ptrace
        { setup_ok := true, seize_rc := 0 }).flags.cd_use_ptrace = false ∧
    (intercept_block flags_intercept_ptrace
        { setup_ok := true, seize_rc := -1 }).terminated_child = true :=
  ⟨(intercept_block_spec flags_intercept_ptrace
      { setup_ok := false, seize_rc := 1 } (Or.inl rfl)).1 rfl,
   ((intercept_block_spec flags_intercept_ptrace
      { setup_ok := true, seize_rc := 0 } (Or.inl rfl)).2.1
      rfl rfl rfl).2.2.1,
   (intercept_block_spec flags_intercept_ptrace
      { setup_ok := true, seize_rc := -1 } (Or.inl rfl)).2.2 rfl rfl rfl⟩

/-- Claim C10: `fill_exec_closure_nopty` moves the donated event base into
the closure and nulls the caller's `details.evbase` field, for every
details record and `getpgrp` result. -/
theorem fill_exec_closure_nopty_takes_evbase (details : command_details)
    (pg : Int) :
    (fill_exec_closure_nopty details pg).2.evbase = none ∧
    (fill_exec_closure_nopty details pg).1.evbase = details.evbase :=
  ⟨rfl, rfl⟩
